import Mathlib

/-!
Shallow embedding of the gbdx-py token lifecycle manager
(`src/gbdx/gbdx_auth.py`) and the thumbnail endpoint helper
(`src/gbdx/core.py`), with theorems settling the behavioural claims
about API-key unpacking, token persistence, session construction and
error propagation.

External collaborators (the `ConfigParser` ini layer, the `json`
codec, the HTTP transport and the cv2 image codec) are modelled at the
data level: a config file is an ordered association of sections, each
an ordered association of keys to values; a value is either a plain
string or a JSON document serializing a token record; network and
file-system effects are recorded in an explicit event trace.
-/

namespace Gbdx

/-! ## Python string split / join (the operations used by `_unpack_apikey`) -/

/-- Python's `s.split(sep)` for a single-character separator, over the
character list of the string: splits at every occurrence of `sep`,
keeping empty segments, and always returns at least one segment. -/
def splitOnChar (sep : Char) : List Char → List (List Char)
  | [] => [[]]
  | c :: cs =>
    if c = sep then [] :: splitOnChar sep cs
    else
      match splitOnChar sep cs with
      | [] => [[c]]
      | r :: rs => (c :: r) :: rs

/-- Python's `sep.join(segments)` for a single-character separator. -/
def joinChar (sep : Char) : List (List Char) → List Char
  | [] => []
  | [x] => x
  | x :: y :: ys => x ++ sep :: joinChar sep (y :: ys)

/-- `_unpack_apikey` (gbdx_auth.py lines 143-150) on character lists:
`tmp = apikey.split(':')`, `client_id = tmp[0]`,
`client_secret = ":".join(tmp[1:])`. -/
def unpackApikeyChars (apikey : List Char) : List Char × List Char :=
  let tmp := splitOnChar ':' apikey
  (tmp.headD [], joinChar ':' (tmp.drop 1))

/-- `_unpack_apikey` at the string level. -/
def unpack_apikey (apikey : String) : String × String :=
  let p := unpackApikeyChars apikey.toList
  (String.mk p.1, String.mk p.2)

/-! ## base64 (the `base64.b64encode` call of gbdx_auth.py line 62) -/

def b64Alphabet : List Char :=
  "ABCDEFGHIJKLMNOPQRSTUVWXYZabcdefghijklmnopqrstuvwxyz0123456789+/".toList

def b64Digit (n : Nat) : Char := b64Alphabet.getD n 'A'

/-- Encode one final group of 1, 2 or 3 bytes into 4 base64 characters,
padding with `=`. -/
def b64Chunk : List Nat → List Char
  | [a] => [b64Digit (a / 4), b64Digit (a % 4 * 16), '=', '=']
  | [a, b] => [b64Digit (a / 4), b64Digit (a % 4 * 16 + b / 16),
               b64Digit (b % 16 * 4), '=']
  | [a, b, c] => [b64Digit (a / 4), b64Digit (a % 4 * 16 + b / 16),
                  b64Digit (b % 16 * 4 + c / 64), b64Digit (c % 64)]
  | _ => []

def b64Bytes : List Nat → List Char
  | [] => []
  | [a] => b64Chunk [a]
  | [a, b] => b64Chunk [a, b]
  | a :: b :: c :: rest => b64Chunk [a, b, c] ++ b64Bytes rest

/-- `base64.b64encode` on a (byte) string. -/
def b64encode (s : String) : String :=
  String.mk (b64Bytes (s.toList.map Char.toNat))

/-! ## Token records and the config-file model -/

/-- The OAuth2 token record held in the `[gbdx_token]` section
(`{access_token, refresh_token, token_type, expires_at, scope}`);
`expires_at` is a timestamp in seconds. -/
structure Token where
  access_token : String
  refresh_token : String
  token_type : String
  expires_at : Int
  scope : String
deriving DecidableEq, Repr

/-- A config-file value: a plain string, or a JSON document serializing
a token record (what `json.dumps(token)` stores under the `json` key;
the external `json` codec round-trips exactly, so the document is
modelled by the record it serializes). -/
inductive CfgValue
  | str (s : String)
  | jsonTok (t : Token)
deriving DecidableEq, Repr

/-- One ini section: ordered key/value pairs. -/
abbrev Options := List (String × CfgValue)

/-- A parsed ini file: ordered named sections. -/
abbrev Config := List (String × Options)

/-- The serialized text of `json.dumps` for a token record (fixed key
order; deterministic, as the claims about byte-identity require). -/
def dumpToken (t : Token) : String :=
  "\x7b\"access_token\": \"" ++ t.access_token ++
  "\", \"refresh_token\": \"" ++ t.refresh_token ++
  "\", \"token_type\": \"" ++ t.token_type ++
  "\", \"expires_at\": " ++ toString t.expires_at ++
  ", \"scope\": \"" ++ t.scope ++ "\"\x7d"

/-- Render a config value as the string `ConfigParser` would write. -/
def writeValue : CfgValue → String
  | .str s => s
  | .jsonTok t => dumpToken t

/-- The string `cfg.get` hands back for a value. -/
def asStr (v : CfgValue) : String := writeValue v

/-- Errors raised by `ConfigParser.get`. -/
inductive CfgError
  | noSection (sec : String)
  | noOption (sec key : String)
deriving DecidableEq, Repr

def lookupOpt (opts : Options) (key : String) : Option CfgValue :=
  match opts with
  | [] => none
  | (k, v) :: rest => if k = key then some v else lookupOpt rest key

/-- The first section with the given name. -/
def cfgGetSection (cfg : Config) (sec : String) : Option Options :=
  match cfg with
  | [] => none
  | (s, opts) :: rest => if s = sec then some opts else cfgGetSection rest sec

/-- `cfg.get(sec, key)`: `NoSectionError` when the section is absent,
`NoOptionError` when the key is absent in it. -/
def cfgGet (cfg : Config) (sec key : String) : Except CfgError CfgValue :=
  match cfgGetSection cfg sec with
  | none => .error (.noSection sec)
  | some opts =>
    match lookupOpt opts key with
    | none => .error (.noOption sec key)
    | some v => .ok v

/-- `sec in set(cfg.sections())`. -/
def cfgHasSection (cfg : Config) (sec : String) : Bool :=
  cfg.any (fun p => p.1 = sec)

/-- `cfg.add_section(sec)`: appends an empty section. -/
def cfgAddSection (cfg : Config) (sec : String) : Config :=
  cfg ++ [(sec, [])]

/-- Set a key in one section's options, updating in place when present,
appending otherwise. -/
def setOption (opts : Options) (key : String) (v : CfgValue) : Options :=
  match opts with
  | [] => [(key, v)]
  | (k, w) :: rest =>
    if k = key then (k, v) :: rest else (k, w) :: setOption rest key v

/-- `cfg.set(sec, key, v)` on the first section named `sec` (in
`save_token` the section always exists when this is called; on a
missing section `ConfigParser` would raise, which no claim reaches). -/
def cfgSet (cfg : Config) (sec key : String) (v : CfgValue) : Config :=
  match cfg with
  | [] => []
  | (s, opts) :: rest =>
    if s = sec then (s, setOption opts key v) :: rest
    else (s, opts) :: cfgSet rest sec key v

/-- The `save_token` closure of `session_from_config` (gbdx_auth.py
lines 46-52): add the `gbdx_token` section when absent, store
`json.dumps(token)` under its `json` key.  The caller then writes the
whole config back to the file. -/
def save_token (cfg : Config) (t : Token) : Config :=
  let cfg1 := if cfgHasSection cfg "gbdx_token" then cfg
              else cfgAddSection cfg "gbdx_token"
  cfgSet cfg1 "gbdx_token" "json" (.jsonTok t)

/-- Loading the stored token record (gbdx_auth.py lines 69-75): read
`json.loads(cfg.get('gbdx_token','json'))` when the section exists, and
replace `expires_at` by
`(datetime.fromtimestamp(expires_at) - datetime.now()).total_seconds() - 600`,
i.e. `expires_at - now - 600` seconds. -/
def load_token (cfg : Config) (now : Int) : Option Token :=
  if cfgHasSection cfg "gbdx_token" then
    match cfgGet cfg "gbdx_token" "json" with
    | .ok (.jsonTok t) => some { t with expires_at := t.expires_at - now - 600 }
    | _ => none
  else none

/-- The text `ConfigParser.write` emits for the named section (empty
when the section is absent): a `[sec]` header, one `key = value` line
per option, then a blank line. -/
def sectionText (cfg : Config) (sec : String) : String :=
  match cfgGetSection cfg sec with
  | none => ""
  | some opts =>
    "[" ++ sec ++ "]\n" ++
    String.join (opts.map (fun kv => kv.1 ++ " = " ++ writeValue kv.2 ++ "\n")) ++
    "\n"

/-! ## Session construction (`session_from_config`, `session_from_envvars`,
`get_session` of gbdx_auth.py) -/

def GBDX_AUTH_URL : String := "https://geobigdata.io/auth/v1/oauth/token/"

/-- An auth-server rejection of a grant or refresh exchange: `fetch_token`
raises when the response is non-2xx; the status is carried along. -/
structure AuthErr where
  status : Nat
deriving DecidableEq, Repr

/-- The errors the session-construction paths can raise. -/
inductive GbdxError
  /-- `RuntimeError('No ini file found ...')`, gbdx_auth.py line 57. -/
  | noIniFile
  /-- An uncaught `NoSectionError` / `NoOptionError` from `cfg.get`. -/
  | cfgErr (e : CfgError)
  /-- `json.loads` applied to text that is not a token document. -/
  | jsonError
  /-- `KeyError` from `os.environ[envvar]`, gbdx_auth.py line 31. -/
  | keyError (envvar : String)
  /-- The grant exchange was rejected by the auth server. -/
  | authError (e : AuthErr)
  /-- `NameError`: a name is referenced before assignment. -/
  | nameError (n : String)
deriving DecidableEq, Repr

/-- The observable side effects of session construction: a token fetch
against the auth endpoint (a network call), and a rewrite of the config
file with the given contents. -/
inductive Event
  | fetchToken (url username password : String) (authHeader : Option String)
  | writeFile (cfg : Config)
deriving DecidableEq, Repr

def Event.isFetch : Event → Bool
  | .fetchToken _ _ _ _ => true
  | .writeFile _ => false

def Event.isWrite : Event → Bool
  | .fetchToken _ _ _ _ => false
  | .writeFile _ => true

/-- The `OAuth2Session` handed back to the caller, reduced to the data
the claims speak about: the client id, the refresh url and the bound
token record. -/
structure Session where
  client_id : String
  auth_url : String
  token : Token
deriving DecidableEq, Repr

/-- Outcome of a session-construction run: the returned session or the
raised error, together with the trace of network calls and file writes
performed (in order). -/
structure RunResult where
  outcome : Except GbdxError Session
  events : List Event
deriving Repr

/-- Credential resolution of gbdx_auth.py lines 59-66: read
`client_id`/`client_secret` and build `api_key = b64encode(id:secret)`;
on `NoOptionError` fall back to the raw `api_key` value and unpack it
(a `NoSectionError` is not caught and propagates, as does a missing
`api_key`).  Yields `(client_id, client_secret, api_key)`. -/
def resolveCreds (cfg : Config) : Except GbdxError (String × String × String) :=
  let fallback : Except GbdxError (String × String × String) :=
    match cfgGet cfg "gbdx" "api_key" with
    | .error e => .error (.cfgErr e)
    | .ok v =>
      let apikey := asStr v
      let p := unpack_apikey apikey
      .ok (p.1, p.2, apikey)
  match cfgGet cfg "gbdx" "client_id" with
  | .error (.noSection s) => .error (.cfgErr (.noSection s))
  | .error (.noOption _ _) => fallback
  | .ok cid =>
    match cfgGet cfg "gbdx" "client_secret" with
    | .error (.noSection s) => .error (.cfgErr (.noSection s))
    | .error (.noOption _ _) => fallback
    | .ok csec =>
      let i := asStr cid
      let s := asStr csec
      .ok (i, s, b64encode (i ++ ":" ++ s))

/-- `session_from_config(config_file)` (gbdx_auth.py lines 42-118).
`cfg?` is what `ConfigParser.read` found at the path (`none` when no
ini file was there); `now` is `datetime.now()` in seconds; `server` is
the auth endpoint's reply to a grant exchange.

When the `gbdx_token` section exists, the stored record (with
`expires_at` moved to `expires_at - now - 600`) is bound to a fresh
session and no network call happens.  Otherwise a grant exchange is
issued with an `Authorization: Basic {api_key}` header, and on success
the token is saved to the file; the source then executes `return s`
with `s` unbound in this branch, a `NameError`. -/
def session_from_config (cfg? : Option Config) (now : Int)
    (server : Except AuthErr Token) : RunResult :=
  match cfg? with
  | none => ⟨.error .noIniFile, []⟩
  | some cfg =>
    match resolveCreds cfg with
    | .error e => ⟨.error e, []⟩
    | .ok (client_id, _client_secret, api_key) =>
      if cfgHasSection cfg "gbdx_token" then
        match cfgGet cfg "gbdx_token" "json" with
        | .error e => ⟨.error (.cfgErr e), []⟩
        | .ok (.str _) => ⟨.error .jsonError, []⟩
        | .ok (.jsonTok stored) =>
          let token := { stored with expires_at := stored.expires_at - now - 600 }
          match cfgGet cfg "gbdx" "auth_url" with
          | .error e => ⟨.error (.cfgErr e), []⟩
          | .ok url =>
            ⟨.ok { client_id := client_id, auth_url := asStr url, token := token }, []⟩
      else
        match cfgGet cfg "gbdx" "auth_url" with
        | .error e => ⟨.error (.cfgErr e), []⟩
        | .ok url =>
          match cfgGet cfg "gbdx" "user_name" with
          | .error e => ⟨.error (.cfgErr e), []⟩
          | .ok uname =>
            match cfgGet cfg "gbdx" "user_password" with
            | .error e => ⟨.error (.cfgErr e), []⟩
            | .ok pword =>
              let ev := Event.fetchToken (asStr url) (asStr uname) (asStr pword)
                          (some ("Basic " ++ api_key))
              match server with
              | .error e => ⟨.error (.authError e), [ev]⟩
              | .ok token =>
                let cfg1 := save_token cfg token
                ⟨.error (.nameError "s"), [ev, .writeFile cfg1]⟩

/-- `os.environ` as an association of variable names to values. -/
def envLookup (env : List (String × String)) (k : String) : Option String :=
  match env with
  | [] => none
  | (n, v) :: rest => if n = k then some v else envLookup rest k

/-- `session_from_envvars()` (gbdx_auth.py lines 13-39): look up the
four template variables in template order, raising `KeyError` at the
first missing one, then fetch a token from `GBDX_AUTH_URL` with the
credentials passed to the oauth library (no explicit Basic header is
built in this path). -/
def session_from_envvars (env : List (String × String))
    (server : Except AuthErr Token) : RunResult :=
  match envLookup env "GBDX_USERNAME" with
  | none => ⟨.error (.keyError "GBDX_USERNAME"), []⟩
  | some username =>
    match envLookup env "GBDX_PASSWORD" with
    | none => ⟨.error (.keyError "GBDX_PASSWORD"), []⟩
    | some password =>
      match envLookup env "GBDX_CLIENT_ID" with
      | none => ⟨.error (.keyError "GBDX_CLIENT_ID"), []⟩
      | some client_id =>
        match envLookup env "GBDX_CLIENT_SECRET" with
        | none => ⟨.error (.keyError "GBDX_CLIENT_SECRET"), []⟩
        | some _ =>
          let ev := Event.fetchToken GBDX_AUTH_URL username password none
          match server with
          | .error e => ⟨.error (.authError e), [ev]⟩
          | .ok t =>
            ⟨.ok { client_id := client_id, auth_url := GBDX_AUTH_URL, token := t }, [ev]⟩

/-- `get_session(config_file)` (gbdx_auth.py lines 120-141).
`explicitFile`: `some f` when a config-file path was passed (`f` being
what `ConfigParser.read` finds there); `defaultFile` describes
`~/.gbdx-config`: `none` when `os.path.isfile` is false, `some f`
when the path is a file and `f` is what parsing it yields.  With no
explicit path the environment is tried first; on any exception the
default file is used when it exists, else the original exception is
re-raised. -/
def get_session (explicitFile : Option (Option Config))
    (env : List (String × String)) (defaultFile : Option (Option Config))
    (now : Int) (server : Except AuthErr Token) : RunResult :=
  match explicitFile with
  | some f => session_from_config f now server
  | none =>
    let r := session_from_envvars env server
    match r.outcome with
    | .ok _ => r
    | .error _ =>
      match defaultFile with
      | some f =>
        let r2 := session_from_config f now server
        ⟨r2.outcome, r.events ++ r2.events⟩
      | none => r

/-! ## The thumbnail helper (`get_thumbnail` of core.py lines 63-85) -/

/-- Modelled from the spec: `GBDX_BASE_URL` comes from
`gbdx/constants.py`, which is not among the source files; §6 gives the
service base URL as `https://<service-host>/`.  Its exact value does
not affect any claim. -/
def GBDX_BASE_URL : String := "https://geobigdata.io"

/-- An HTTP response: status code and body bytes. -/
structure HttpResponse where
  status_code : Nat
  content : List Nat
deriving DecidableEq, Repr

/-- The observable steps of the thumbnail helper: the GET request, the
cv2 decode of the body, and the optional display window. -/
inductive ThumbEvent
  | httpGet (url : String)
  | imdecode (data : List Nat)
  | imshow (windowName : String)
deriving DecidableEq, Repr

/-- The cv2 image produced by `cv2.imdecode`, modelled as the decoded
byte buffer (the codec itself is an external collaborator). -/
structure CvImage where
  data : List Nat
deriving DecidableEq, Repr

/-- `Response.raise_for_status()` of the requests library: raises
`HTTPError` exactly when the status code is 4xx or 5xx, returning the
offending status. -/
def raise_for_status (r : HttpResponse) : Option Nat :=
  if 400 ≤ r.status_code ∧ r.status_code < 600 then some r.status_code else none

/-- The URL `os.path.join(GBDX_BASE_URL,'thumbnails','v1','browse',
'{cat_id}.medium.png')` builds. -/
def thumbnailUrl (cat_id : String) : String :=
  String.intercalate "/"
    [GBDX_BASE_URL, "thumbnails", "v1", "browse", cat_id ++ ".medium.png"]

/-- `get_thumbnail(session, cat_id, show)` (core.py lines 63-85):
GET the thumbnail URL, `raise_for_status`, then decode the body with
cv2 (and optionally display it).  `session_get` models `session.get`;
the result pairs the returned image (or raised status) with the trace
of steps performed. -/
def get_thumbnail (session_get : String → HttpResponse) (cat_id : String)
    (showWin : Bool) : Except Nat CvImage × List ThumbEvent :=
  let url := thumbnailUrl cat_id
  let ret := session_get url
  match raise_for_status ret with
  | some code => (.error code, [.httpGet url])
  | none =>
    let img : CvImage := ⟨ret.content⟩
    (.ok img,
     [.httpGet url, .imdecode ret.content] ++
       (if showWin then [.imshow cat_id] else []))

deriving instance DecidableEq for Except

/-! ## Concrete fixtures shared by witnesses and counterexamples -/

/-- A sample token record. -/
def t0 : Token :=
  { access_token := "access0", refresh_token := "refresh0",
    token_type := "Bearer", expires_at := 1000, scope := "s3" }

/-- A sample token record far from expiry. -/
def t1 : Token :=
  { access_token := "tok1", refresh_token := "ref1",
    token_type := "Bearer", expires_at := 1000000000, scope := "s3" }

/-- A config file with direct `client_id`/`client_secret` credentials
and no stored token. -/
def cfgCreds : Config :=
  [("gbdx", [("client_id", .str "abc"), ("client_secret", .str "def"),
             ("auth_url", .str "https://auth"),
             ("user_name", .str "u"), ("user_password", .str "p")])]

/-- A config file whose credentials are a combined `api_key`. -/
def cfgApiKey : Config :=
  [("gbdx", [("api_key", .str "abc:def"),
             ("auth_url", .str "https://auth"),
             ("user_name", .str "u"), ("user_password", .str "p")])]

/-- A config file with credentials and a stored token record `t1`. -/
def cfgStored : Config :=
  [("gbdx", [("client_id", .str "abc"), ("client_secret", .str "def"),
             ("auth_url", .str "https://auth"),
             ("user_name", .str "u"), ("user_password", .str "p")]),
   ("gbdx_token", [("json", .jsonTok t1)])]

/-! ## Split / join lemmas -/

theorem splitOnChar_ne_nil (sep : Char) (s : List Char) :
    splitOnChar sep s ≠ [] := by
  cases s with
  | nil => simp [splitOnChar]
  | cons c cs =>
    simp only [splitOnChar]
    split
    · simp
    · split <;> simp

theorem splitOnChar_of_not_mem (sep : Char) :
    ∀ s : List Char, sep ∉ s → splitOnChar sep s = [s]
  | [], _ => rfl
  | c :: cs, h => by
    have hc : ¬ c = sep := fun e => h (e ▸ List.mem_cons_self c cs)
    have ih := splitOnChar_of_not_mem sep cs (fun m => h (List.mem_cons_of_mem _ m))
    simp [splitOnChar, hc, ih]

theorem splitOnChar_append (sep : Char) :
    ∀ (a b : List Char), sep ∉ a →
      splitOnChar sep (a ++ sep :: b) = a :: splitOnChar sep b
  | [], b, _ => by simp [splitOnChar]
  | c :: a', b, h => by
    have hc : ¬ c = sep := fun e => h (e ▸ List.mem_cons_self c a')
    have ih := splitOnChar_append sep a' b (fun m => h (List.mem_cons_of_mem _ m))
    simp [splitOnChar, hc, ih]

theorem joinChar_splitOnChar (sep : Char) :
    ∀ s : List Char, joinChar sep (splitOnChar sep s) = s
  | [] => rfl
  | c :: cs => by
    have ih := joinChar_splitOnChar sep cs
    obtain ⟨r, rs, hr⟩ : ∃ r rs, splitOnChar sep cs = r :: rs := by
      cases h : splitOnChar sep cs with
      | nil => exact absurd h (splitOnChar_ne_nil sep cs)
      | cons r rs => exact ⟨r, rs, rfl⟩
    rw [hr] at ih
    by_cases hc : c = sep
    · subst hc
      simp only [splitOnChar, if_pos rfl, hr, joinChar]
      simpa using ih
    · simp only [splitOnChar, if_neg hc, hr]
      cases rs with
      | nil => simpa [joinChar] using congrArg (c :: ·) ih
      | cons y ys =>
        simp only [joinChar] at ih ⊢
        simpa using congrArg (c :: ·) ih

theorem unpackApikeyChars_split_first (a b : List Char) (h : ':' ∉ a) :
    unpackApikeyChars (a ++ ':' :: b) = (a, b) := by
  unfold unpackApikeyChars
  rw [splitOnChar_append ':' a b h]
  simp [joinChar_splitOnChar]

/-! ## Claims C1 and C10: API-key unpacking -/

/-- C1.  For every API key string containing at least one colon —
written as `a ++ ":" ++ b` with `a` the colon-free segment before the
first colon — `_unpack_apikey` yields `client_id = a` and
`client_secret = b`, the remainder with all remaining segments rejoined
by colons (splitting on every colon and rejoining the tail restores the
remainder verbatim). -/
theorem unpack_apikey_first_colon (a b : String) (h : ':' ∉ a.toList) :
    unpack_apikey (a ++ ":" ++ b) = (a, b) := by
  unfold unpack_apikey
  have hl : (a ++ ":" ++ b).toList = a.toList ++ ':' :: b.toList := by
    show (a ++ ":" ++ b).data = a.data ++ ':' :: b.data
    simp [String.data_append]
  rw [hl, unpackApikeyChars_split_first a.toList b.toList h]
  rfl

/-- C1 witness: unpacking `"id:sec:ret"` yields `client_id = "id"` and
`client_secret = "sec:ret"`. -/
theorem unpack_apikey_first_colon_witness :
    ':' ∉ "id".toList ∧ unpack_apikey "id:sec:ret" = ("id", "sec:ret") :=
  ⟨by decide, by
    have h := unpack_apikey_first_colon "id" "sec:ret" (by decide)
    rwa [show ("id" ++ ":" ++ "sec:ret" : String) = "id:sec:ret" by rfl] at h⟩

/-- C10.  For every API key string with no colon, `split(':')` yields the
single segment `[apikey]`, so `_unpack_apikey` returns the whole input
as `client_id` and the empty string as `client_secret`, raising no
error. -/
theorem unpack_apikey_no_colon (s : String) (h : ':' ∉ s.toList) :
    unpack_apikey s = (s, "") := by
  simp only [unpack_apikey, unpackApikeyChars]
  rw [splitOnChar_of_not_mem ':' s.toList h]
  rfl

/-- C10 witness: unpacking the colon-free key `"abcdef"` yields
`("abcdef", "")`. -/
theorem unpack_apikey_no_colon_witness :
    ':' ∉ "abcdef".toList ∧ unpack_apikey "abcdef" = ("abcdef", "") :=
  ⟨by decide, unpack_apikey_no_colon "abcdef" (by decide)⟩

/-! ## Token-store lemmas -/

theorem lookupOpt_setOption_self (opts : Options) (key : String) (v : CfgValue) :
    lookupOpt (setOption opts key v) key = some v := by
  induction opts with
  | nil => simp [setOption, lookupOpt]
  | cons kv rest ih =>
    obtain ⟨k, w⟩ := kv
    by_cases hk : k = key
    · simp [setOption, lookupOpt, hk]
    · simp [setOption, lookupOpt, hk, ih]

theorem cfgHasSection_cfgSet (cfg : Config) (sec key : String) (v : CfgValue)
    (s' : String) : cfgHasSection (cfgSet cfg sec key v) s' = cfgHasSection cfg s' := by
  induction cfg with
  | nil => simp [cfgSet]
  | cons p rest ih =>
    obtain ⟨s, opts⟩ := p
    by_cases hs : s = sec
    · simp [cfgSet, cfgHasSection, hs]
    · simp only [cfgHasSection] at ih
      simp [cfgSet, hs, cfgHasSection, ih]

theorem cfgHasSection_save_token (cfg : Config) (t : Token) :
    cfgHasSection (save_token cfg t) "gbdx_token" = true := by
  unfold save_token
  by_cases h : cfgHasSection cfg "gbdx_token"
  · rw [if_pos h, cfgHasSection_cfgSet, h]
  · rw [if_neg h, cfgHasSection_cfgSet]
    simp [cfgAddSection, cfgHasSection]

theorem cfgGet_cfgSet_self (cfg : Config) (sec key : String) (v : CfgValue)
    (h : cfgHasSection cfg sec = true) :
    cfgGet (cfgSet cfg sec key v) sec key = .ok v := by
  induction cfg with
  | nil => simp [cfgHasSection] at h
  | cons p rest ih =>
    obtain ⟨s, opts⟩ := p
    by_cases hs : s = sec
    · simp [cfgSet, cfgGet, cfgGetSection, hs, lookupOpt_setOption_self]
    · have h' : cfgHasSection rest sec = true := by
        simpa [cfgHasSection, List.any_cons, hs] using h
      simp [cfgSet, cfgGet, cfgGetSection, hs]
      simpa [cfgGet] using ih h'

theorem cfgGetSection_append_of_not_has (cfg : Config) (sec : String)
    (h : cfgHasSection cfg sec = false) (tailCfg : Config) :
    cfgGetSection (cfg ++ tailCfg) sec = cfgGetSection tailCfg sec := by
  induction cfg with
  | nil => simp
  | cons p rest ih =>
    obtain ⟨s, opts⟩ := p
    have hs : ¬ s = sec := by
      intro e
      simp [cfgHasSection, List.any_cons, e] at h
    have h' : cfgHasSection rest sec = false := by
      simpa [cfgHasSection, List.any_cons, hs] using h
    simpa [cfgGetSection, hs] using ih h'

theorem cfgHasSection_addSection_self (cfg : Config) (sec : String) :
    cfgHasSection (cfgAddSection cfg sec) sec = true := by
  simp [cfgAddSection, cfgHasSection, List.any_append]

/-- After `save_token`, the `gbdx_token` section's `json` key holds the
saved record's JSON document. -/
theorem cfgGet_save_token (cfg : Config) (t : Token) :
    cfgGet (save_token cfg t) "gbdx_token" "json" = .ok (.jsonTok t) := by
  unfold save_token
  by_cases h : cfgHasSection cfg "gbdx_token"
  · rw [if_pos h]
    exact cfgGet_cfgSet_self cfg _ _ _ h
  · rw [if_neg h]
    exact cfgGet_cfgSet_self _ _ _ _ (cfgHasSection_addSection_self cfg _)

/-! ## Claim C2: the save/load round trip -/

/-- C2 counterexample: saving the record `t0` (with `expires_at = 1000`)
into an empty config and loading it back at `now = 0` does not return
`t0`: the loaded record's `expires_at` is `1000 - 0 - 600 = 400`. -/
theorem save_load_not_identity : load_token (save_token [] t0) 0 ≠ some t0 := by
  decide

/-- C2 (amended).  Saving a record and loading it back yields a record
equal in `access_token`, `refresh_token`, `token_type` and `scope`;
`expires_at` alone is replaced by the safety-margin-relative value
`expires_at - now - 600` (gbdx_auth.py lines 74-75). -/
theorem save_load_roundtrip (cfg : Config) (t : Token) (now : Int) :
    load_token (save_token cfg t) now =
      some { access_token := t.access_token, refresh_token := t.refresh_token,
             token_type := t.token_type, expires_at := t.expires_at - now - 600,
             scope := t.scope } := by
  unfold load_token
  rw [cfgHasSection_save_token, cfgGet_save_token]
  simp

/-! ## Claim C7: idempotence of save -/

theorem setOption_setOption (opts : Options) (key : String) (v : CfgValue) :
    setOption (setOption opts key v) key v = setOption opts key v := by
  induction opts with
  | nil => simp [setOption]
  | cons kv rest ih =>
    obtain ⟨k, w⟩ := kv
    by_cases hk : k = key
    · simp [setOption, hk]
    · simp [setOption, hk, ih]

theorem cfgSet_cfgSet (cfg : Config) (sec key : String) (v : CfgValue) :
    cfgSet (cfgSet cfg sec key v) sec key v = cfgSet cfg sec key v := by
  induction cfg with
  | nil => simp [cfgSet]
  | cons p rest ih =>
    obtain ⟨s, opts⟩ := p
    by_cases hs : s = sec
    · simp [cfgSet, hs, setOption_setOption]
    · simp [cfgSet, hs, ih]

/-- Saving the same record twice produces the same config state as
saving it once. -/
theorem save_token_save_token (cfg : Config) (t : Token) :
    save_token (save_token cfg t) t = save_token cfg t := by
  conv_lhs => rw [save_token]
  rw [if_pos (cfgHasSection_save_token cfg t)]
  conv_lhs => rw [save_token]
  by_cases h : cfgHasSection cfg "gbdx_token"
  · rw [if_pos h, cfgSet_cfgSet]
    rw [save_token, if_pos h]
  · rw [if_neg h, cfgSet_cfgSet]
    rw [save_token, if_neg h]

theorem cfgGetSection_cfgSet_ne (cfg : Config) (sec key : String) (v : CfgValue)
    (s' : String) (h : s' ≠ sec) :
    cfgGetSection (cfgSet cfg sec key v) s' = cfgGetSection cfg s' := by
  induction cfg with
  | nil => simp [cfgSet]
  | cons p rest ih =>
    obtain ⟨s, opts⟩ := p
    by_cases hs : s = sec
    · subst hs
      have hne : ¬ s = s' := fun e => h e.symm
      simp [cfgSet, cfgGetSection, hne]
    · by_cases hs' : s = s'
      · simp [cfgSet, cfgGetSection, hs, hs', h]
      · simp [cfgSet, cfgGetSection, hs, hs', ih]

theorem cfgGetSection_addSection_ne (cfg : Config) (sec s' : String)
    (h : s' ≠ sec) :
    cfgGetSection (cfgAddSection cfg sec) s' = cfgGetSection cfg s' := by
  unfold cfgAddSection
  induction cfg with
  | nil =>
    have hne : ¬ sec = s' := fun e => h (Eq.symm e)
    simp [cfgGetSection, hne]
  | cons p rest ih =>
    obtain ⟨s, opts⟩ := p
    by_cases hs : s = s'
    · simp [cfgGetSection, hs]
    · simp [cfgGetSection, hs, ih]

/-- `save_token` never touches the credentials (`gbdx`) section. -/
theorem cfgGetSection_save_token_gbdx (cfg : Config) (t : Token) :
    cfgGetSection (save_token cfg t) "gbdx" = cfgGetSection cfg "gbdx" := by
  unfold save_token
  by_cases h : cfgHasSection cfg "gbdx_token"
  · rw [if_pos h, cfgGetSection_cfgSet_ne _ _ _ _ _ (by decide)]
  · rw [if_neg h, cfgGetSection_cfgSet_ne _ _ _ _ _ (by decide),
        cfgGetSection_addSection_ne _ _ _ (by decide)]

/-- C7.  Saving the same record twice in succession is idempotent: after
the second save the serialized `[gbdx_token]` section is byte-identical
to its state after the first save, and the serialized `[gbdx]`
credentials section is byte-identical to its state before either
save. -/
theorem save_token_idempotent_sections (cfg : Config) (t : Token) :
    sectionText (save_token (save_token cfg t) t) "gbdx_token" =
      sectionText (save_token cfg t) "gbdx_token" ∧
    sectionText (save_token (save_token cfg t) t) "gbdx" =
      sectionText cfg "gbdx" := by
  refine ⟨by rw [save_token_save_token], ?_⟩
  rw [save_token_save_token]
  unfold sectionText
  rw [cfgGetSection_save_token_gbdx]

/-! ## Claim C3: a stored, unexpired token is used without a network call -/

/-- C3.  When the config file holds a `gbdx_token` section whose record
is not expired under the safety-margin rule (`now < expires_at - 600`),
`session_from_config` returns a session bound to the stored record
(with `expires_at` moved to its safety-margin-relative form, per the
load rule of lines 74-75) and its event trace is empty: no grant
exchange and no network call of any kind is issued, whatever the auth
server would have answered. -/
theorem session_from_config_stored_token (cfg : Config) (now : Int)
    (server : Except AuthErr Token) (cid csec akey : String) (stored : Token)
    (url : CfgValue)
    (hc : resolveCreds cfg = .ok (cid, csec, akey))
    (hs : cfgHasSection cfg "gbdx_token" = true)
    (ht : cfgGet cfg "gbdx_token" "json" = .ok (.jsonTok stored))
    (hu : cfgGet cfg "gbdx" "auth_url" = .ok url)
    (_hexp : now < stored.expires_at - 600) :
    session_from_config (some cfg) now server =
      ⟨.ok { client_id := cid, auth_url := asStr url,
             token := { stored with expires_at := stored.expires_at - now - 600 } },
       []⟩ := by
  simp [session_from_config, hc, hs, ht, hu]

/-- C3 witness: with credentials `abc`/`def`, a stored record `t1`
(`expires_at = 10^9`), `now = 0` and an auth server that would reject
every exchange, the session is built from the stored record with an
empty event trace. -/
theorem session_from_config_stored_token_witness :
    session_from_config (some cfgStored) 0 (.error ⟨500⟩) =
      ⟨.ok { client_id := "abc", auth_url := "https://auth",
             token := { t1 with expires_at := t1.expires_at - 0 - 600 } },
       []⟩ :=
  session_from_config_stored_token cfgStored 0 (.error ⟨500⟩)
    "abc" "def" "YWJjOmRlZg==" t1 (.str "https://auth")
    (by decide) (by decide) (by decide) (by decide) (by decide)

/-! ## Claim C5: a rejected grant exchange writes nothing -/

/-- C5.  With no stored token and the auth server rejecting the grant
exchange, `session_from_config` fails with the authentication error and
the event trace holds the single fetch and no file write: the persisted
config file is untouched. -/
theorem session_from_config_rejected_no_write (cfg : Config) (now : Int)
    (e : AuthErr) (cid csec akey : String) (url un pw : CfgValue)
    (hc : resolveCreds cfg = .ok (cid, csec, akey))
    (hs : cfgHasSection cfg "gbdx_token" = false)
    (hu : cfgGet cfg "gbdx" "auth_url" = .ok url)
    (hn : cfgGet cfg "gbdx" "user_name" = .ok un)
    (hp : cfgGet cfg "gbdx" "user_password" = .ok pw) :
    session_from_config (some cfg) now (.error e) =
      ⟨.error (.authError e),
       [.fetchToken (asStr url) (asStr un) (asStr pw) (some ("Basic " ++ akey))]⟩ ∧
    ∀ c, Event.writeFile c ∉ (session_from_config (some cfg) now (.error e)).events := by
  have hrun : session_from_config (some cfg) now (.error e) =
      ⟨.error (.authError e),
       [.fetchToken (asStr url) (asStr un) (asStr pw) (some ("Basic " ++ akey))]⟩ := by
    simp [session_from_config, hc, hs, hu, hn, hp]
  refine ⟨hrun, fun c => ?_⟩
  rw [hrun]
  simp

/-- C5 witness: with the credentials-only config and a 401 rejection,
the run fails with the auth error, the only event is the fetch, and no
write event occurs. -/
theorem session_from_config_rejected_no_write_witness :
    session_from_config (some cfgCreds) 7 (.error ⟨401⟩) =
      ⟨.error (.authError ⟨401⟩),
       [.fetchToken "https://auth" "u" "p" (some ("Basic " ++ "YWJjOmRlZg=="))]⟩ ∧
    ∀ c, Event.writeFile c ∉ (session_from_config (some cfgCreds) 7 (.error ⟨401⟩)).events :=
  session_from_config_rejected_no_write cfgCreds 7 ⟨401⟩
    "abc" "def" "YWJjOmRlZg==" (.str "https://auth") (.str "u") (.str "p")
    (by decide) (by decide) (by decide) (by decide) (by decide)

/-! ## Claim C4: the Basic header of the fresh grant exchange -/

/-- C4 (code bug).  When the credentials come from a combined `api_key`,
the fresh grant exchange does not carry `Basic base64(client_id ++ ":"
++ client_secret)`: at the config whose `[gbdx]` section holds only
`api_key = abc:def`, the raw key is resolved to
`client_id = "abc"`, `client_secret = "def"`, and the request header is
the raw `"Basic abc:def"`, which differs from
`"Basic " ++ b64encode ("abc" ++ ":" ++ "def") = "Basic YWJjOmRlZg=="`
that the claim (and the base64-encoding branch of lines 60-62)
requires. -/
theorem apikey_grant_header_not_base64 :
    resolveCreds cfgApiKey = .ok ("abc", "def", "abc:def") ∧
    (session_from_config (some cfgApiKey) 0 (.ok t0)).events.head? =
      some (.fetchToken "https://auth" "u" "p" (some "Basic abc:def")) ∧
    "Basic abc:def" ≠ "Basic " ++ b64encode ("abc" ++ ":" ++ "def") := by
  refine ⟨by decide, by decide, by decide⟩

/-! ## Claim C6: env-var failure is propagated past a missing default file -/

/-- C6.  With no explicit config path, when the environment attempt
fails with a missing-variable `KeyError` and the default config path is
not a file, `get_session` returns the environment run unchanged: the
original environment-lookup failure — not any file error — reaches the
caller. -/
theorem get_session_env_failure_propagates (env : List (String × String))
    (now : Int) (server : Except AuthErr Token) (v : String)
    (h : (session_from_envvars env server).outcome = .error (.keyError v)) :
    get_session none env none now server = session_from_envvars env server ∧
    (get_session none env none now server).outcome = .error (.keyError v) := by
  have hrun : get_session none env none now server = session_from_envvars env server := by
    simp only [get_session]
    rw [h]
  exact ⟨hrun, by rw [hrun, h]⟩

/-- C6 witness: with only `GBDX_USERNAME` set and no default file, the
`KeyError` for `GBDX_PASSWORD` is propagated. -/
theorem get_session_env_failure_propagates_witness :
    get_session none [("GBDX_USERNAME", "u")] none 0 (.ok t0) =
      session_from_envvars [("GBDX_USERNAME", "u")] (.ok t0) ∧
    (get_session none [("GBDX_USERNAME", "u")] none 0 (.ok t0)).outcome =
      .error (.keyError "GBDX_PASSWORD") :=
  get_session_env_failure_propagates [("GBDX_USERNAME", "u")] 0 (.ok t0)
    "GBDX_PASSWORD" (by decide)

/-! ## Claim C8: env fallback performs one grant exchange and one write -/

/-- A successful fresh grant exchange in `session_from_config`: one
fetch with the Basic header, one file write with the saved token (the
source then hits `return s` with `s` unbound in this branch, a
`NameError`, after both effects have happened). -/
theorem session_from_config_fresh_grant (cfg : Config) (now : Int) (t : Token)
    (cid csec akey : String) (url un pw : CfgValue)
    (hc : resolveCreds cfg = .ok (cid, csec, akey))
    (hs : cfgHasSection cfg "gbdx_token" = false)
    (hu : cfgGet cfg "gbdx" "auth_url" = .ok url)
    (hn : cfgGet cfg "gbdx" "user_name" = .ok un)
    (hp : cfgGet cfg "gbdx" "user_password" = .ok pw) :
    session_from_config (some cfg) now (.ok t) =
      ⟨.error (.nameError "s"),
       [.fetchToken (asStr url) (asStr un) (asStr pw) (some ("Basic " ++ akey)),
        .writeFile (save_token cfg t)]⟩ := by
  simp [session_from_config, hc, hs, hu, hn, hp]

/-- When a required variable is missing, the environment path raises its
`KeyError` before any effect: no event is traced. -/
theorem session_from_envvars_missing_var (env : List (String × String))
    (server : Except AuthErr Token)
    (h : envLookup env "GBDX_USERNAME" = none ∨ envLookup env "GBDX_PASSWORD" = none ∨
         envLookup env "GBDX_CLIENT_ID" = none ∨ envLookup env "GBDX_CLIENT_SECRET" = none) :
    (session_from_envvars env server).events = [] ∧
    ∃ w, (session_from_envvars env server).outcome = .error (.keyError w) := by
  unfold session_from_envvars
  cases h1 : envLookup env "GBDX_USERNAME" with
  | none => simp
  | some u =>
    cases h2 : envLookup env "GBDX_PASSWORD" with
    | none => simp
    | some p =>
      cases h3 : envLookup env "GBDX_CLIENT_ID" with
      | none => simp
      | some ci =>
        cases h4 : envLookup env "GBDX_CLIENT_SECRET" with
        | none => simp
        | some cs =>
          rw [h1, h2, h3, h4] at h
          simp at h

/-- C8.  With no explicit path, at least one required environment
variable absent, and the default config file present with valid
credentials and no token section, session acquisition performs exactly
one grant exchange (one fetch event) and writes the `[gbdx_token]`
section to the config file exactly once, the single written file
holding the fetched record under its `json` key. -/
theorem get_session_fallback_one_fetch_one_write (env : List (String × String))
    (cfg : Config) (now : Int) (t : Token)
    (cid csec akey : String) (url un pw : CfgValue)
    (henv : envLookup env "GBDX_USERNAME" = none ∨ envLookup env "GBDX_PASSWORD" = none ∨
            envLookup env "GBDX_CLIENT_ID" = none ∨ envLookup env "GBDX_CLIENT_SECRET" = none)
    (hc : resolveCreds cfg = .ok (cid, csec, akey))
    (hs : cfgHasSection cfg "gbdx_token" = false)
    (hu : cfgGet cfg "gbdx" "auth_url" = .ok url)
    (hn : cfgGet cfg "gbdx" "user_name" = .ok un)
    (hp : cfgGet cfg "gbdx" "user_password" = .ok pw) :
    ((get_session none env (some (some cfg)) now (.ok t)).events.filter
        Event.isFetch).length = 1 ∧
    (get_session none env (some (some cfg)) now (.ok t)).events.filter Event.isWrite =
      [Event.writeFile (save_token cfg t)] ∧
    cfgGet (save_token cfg t) "gbdx_token" "json" = .ok (.jsonTok t) := by
  obtain ⟨hev, w, hout⟩ := session_from_envvars_missing_var env (.ok t) henv
  have hcfg := session_from_config_fresh_grant cfg now t cid csec akey url un pw
    hc hs hu hn hp
  have hrun : get_session none env (some (some cfg)) now (.ok t) =
      ⟨.error (.nameError "s"),
       [.fetchToken (asStr url) (asStr un) (asStr pw) (some ("Basic " ++ akey)),
        .writeFile (save_token cfg t)]⟩ := by
    simp only [get_session]
    rw [hout, hcfg, hev]
    rfl
  rw [hrun]
  refine ⟨?_, ?_, cfgGet_save_token cfg t⟩
  · simp [Event.isFetch, Event.isWrite, List.filter]
  · simp [Event.isFetch, Event.isWrite, List.filter]

/-- C8 witness: empty environment, the credentials-only default file and
a successful exchange for `t0`: one fetch, one write of the token
section holding `t0`. -/
theorem get_session_fallback_one_fetch_one_write_witness :
    ((get_session none [] (some (some cfgCreds)) 3 (.ok t0)).events.filter
        Event.isFetch).length = 1 ∧
    (get_session none [] (some (some cfgCreds)) 3 (.ok t0)).events.filter Event.isWrite =
      [Event.writeFile (save_token cfgCreds t0)] ∧
    cfgGet (save_token cfgCreds t0) "gbdx_token" "json" = .ok (.jsonTok t0) :=
  get_session_fallback_one_fetch_one_write [] cfgCreds 3 t0
    "abc" "def" "YWJjOmRlZg==" (.str "https://auth") (.str "u") (.str "p")
    (by decide) (by decide) (by decide) (by decide) (by decide) (by decide)

/-! ## Claim C9: thumbnail 404 raises before decoding -/

/-- C9.  When the thumbnail GET returns status 404, `get_thumbnail`
raises the `HTTPError` (surfacing the 404) and its trace holds only the
GET: no `cv2.imdecode` step runs and no image value is returned. -/
theorem get_thumbnail_404 (session_get : String → HttpResponse)
    (cat_id : String) (showWin : Bool)
    (h : (session_get (thumbnailUrl cat_id)).status_code = 404) :
    (get_thumbnail session_get cat_id showWin).1 = .error 404 ∧
    ∀ d, ThumbEvent.imdecode d ∉ (get_thumbnail session_get cat_id showWin).2 := by
  have hrun : get_thumbnail session_get cat_id showWin =
      (.error 404, [.httpGet (thumbnailUrl cat_id)]) := by
    simp only [get_thumbnail, raise_for_status]
    rw [h]
    norm_num
  rw [hrun]
  simp

/-- C9 witness: a transport answering 404 everywhere makes the helper
fail with 404 and decode nothing. -/
theorem get_thumbnail_404_witness :
    (get_thumbnail (fun _ => ⟨404, []⟩) "cat123" true).1 = .error 404 ∧
    ∀ d, ThumbEvent.imdecode d ∉ (get_thumbnail (fun _ => ⟨404, []⟩) "cat123" true).2 :=
  get_thumbnail_404 (fun _ => ⟨404, []⟩) "cat123" true rfl

end Gbdx
